import Mathlib

/-!
Verification development for the life-insurance conversation agent
(app/agents/graph.py, app/agents/services.py, app/agents/tools.py).
The Python code is shallowly embedded: LLM-gateway calls, knowledge-base
searches and memory lookups become oracle parameters; a call that raises
is an oracle value in the error branch of Except.  Pure helpers
(keyword matching, regex parameter extraction, record assembly) are
translated directly.
-/

namespace Lisa

/-! Section: Basic character and string helpers (Python semantics, ASCII) -/

def aposC : Char := Char.ofNat 39

def isPySpace (c : Char) : Bool :=
  c == ' ' || c == Char.ofNat 9 || c == Char.ofNat 10 ||
  c == Char.ofNat 13 || c == Char.ofNat 12 || c == Char.ofNat 11

def isPyDigit (c : Char) : Bool :=
  '0' ≤ c && c ≤ '9'

def isPyWord (c : Char) : Bool :=
  ('a' ≤ c && c ≤ 'z') || ('A' ≤ c && c ≤ 'Z') || isPyDigit c || c == Char.ofNat 95

/-- Python text.lower() restricted to ASCII. -/
def pyLower (s : String) : String := ⟨s.data.map Char.toLower⟩

/-- Python text.upper() restricted to ASCII. -/
def pyUpper (s : String) : String := ⟨s.data.map Char.toUpper⟩

/-- Python text.strip(). -/
def pyStrip (s : String) : String :=
  ⟨((s.data.dropWhile isPySpace).reverse.dropWhile isPySpace).reverse⟩

/-- needle is a prefix of hay. -/
def subAt : List Char → List Char → Bool
  | [], _ => true
  | _ :: _, [] => false
  | a :: as, b :: bs => a == b && subAt as bs

/-- needle occurs as a contiguous substring of hay (Python "in"). -/
def containsSubL (needle : List Char) : List Char → Bool
  | [] => needle.isEmpty
  | b :: bs => subAt needle (b :: bs) || containsSubL needle bs

/-- Python "needle in hay" on strings. -/
def strContains (needle hay : String) : Bool :=
  containsSubL needle.data hay.data

/-! Section: A small backtracking regex engine

Covers exactly the constructs used by the patterns in
ToolExecutor._extract_number, the occupation regex and the source-citation
findall: single-character classes, optional groups, star/plus over a
class, and non-capturing alternation.  Matching follows Python re
semantics: leftmost match start, greedy quantifiers with backtracking,
alternatives tried left to right. -/

inductive CharClass where
  | lit : Char → CharClass
  | digit : CharClass
  | space : CharClass
  | word : CharClass
  | notRB : CharClass
  | anyc : CharClass
deriving DecidableEq

def ccMatch : CharClass → Char → Bool
  | .lit c, x => x == c
  | .digit, x => isPyDigit x
  | .space, x => isPySpace x
  | .word, x => isPyWord x
  | .notRB, x => !(x == ']')
  | .anyc, x => !(x == Char.ofNat 10)

inductive RTok where
  | cls : CharClass → RTok
  | opt : List RTok → RTok
  | star : CharClass → RTok
  | plus : CharClass → RTok
  | alt : List (List RTok) → RTok

/-- Backtracking matcher in continuation-passing style.  The continuation
receives the unconsumed suffix; the first success in Python backtracking
order (greedy first, alternatives left to right) wins.  Fuel bounds the
call depth along one backtracking path. -/
def matchToks (k : List Char → Option α) : Nat → List RTok → List Char → Option α
  | 0, _, _ => none
  | fuel + 1, toks, s =>
    match toks with
    | [] => k s
    | .cls c :: ts =>
      match s with
      | [] => none
      | x :: xs => if ccMatch c x then matchToks k fuel ts xs else none
    | .opt sub :: ts =>
      (matchToks k fuel (sub ++ ts) s) <|> matchToks k fuel ts s
    | .star c :: ts =>
      (match s with
       | [] => none
       | x :: xs =>
         if ccMatch c x then matchToks k fuel (.star c :: ts) xs else none) <|>
      matchToks k fuel ts s
    | .plus c :: ts =>
      match s with
      | [] => none
      | x :: xs => if ccMatch c x then matchToks k fuel (.star c :: ts) xs else none
    | .alt branches :: ts =>
      branches.foldr (fun b acc => (matchToks k fuel (b ++ ts) s) <|> acc) none

/-- A pattern with exactly one capturing group: a prefix, a greedy
one-or-more capture over a character class, and a suffix. -/
structure RPat where
  pre : List RTok
  capC : CharClass
  post : List RTok

/-- Give back captured characters one at a time (greedy backtracking)
until the suffix of the pattern matches.  rev is the reversed candidate
capture, tail the text after it.  Returns (capture, text after match). -/
def shrinkCap (fuel : Nat) (post : List RTok) :
    List Char → List Char → Option (List Char × List Char)
  | [], _ => none
  | c :: rev, tail =>
    (matchToks (fun r => some ((c :: rev).reverse, r)) fuel post tail) <|>
    shrinkCap fuel post rev (c :: tail)

/-- Try to match the pattern anchored at the start of s. -/
def matchCapAt (fuel : Nat) (p : RPat) (s : List Char) :
    Option (List Char × List Char) :=
  matchToks
    (fun rest =>
      let ds := rest.takeWhile (ccMatch p.capC)
      shrinkCap fuel p.post ds.reverse (rest.drop ds.length))
    fuel p.pre s

/-- Python re.search: try each start position left to right. -/
def searchCap (fuel : Nat) (p : RPat) : List Char → Option (List Char × List Char)
  | [] => matchCapAt fuel p []
  | a :: xs => (matchCapAt fuel p (a :: xs)) <|> searchCap fuel p xs

/-- First pattern in the ordered list that matches anywhere; returns the
captured group. -/
def firstPatCap (fuel : Nat) : List RPat → List Char → Option (List Char)
  | [], _ => none
  | p :: ps, s =>
    match searchCap fuel p s with
    | some (g, _) => some g
    | none => firstPatCap fuel ps s

def digitsToNat (l : List Char) : Nat :=
  l.foldl (fun a c => a * 10 + (c.toNat - 48)) 0

/-- Literal token sequence for a plain string. -/
def lits (s : String) : List RTok :=
  s.data.map (fun c => RTok.cls (CharClass.lit c))

/-- Fuel that amply covers one backtracking path over text s. -/
def pFuel (s : List Char) : Nat := s.length * 4 + 400

/-! Section: The extraction patterns of ToolExecutor._extract_number -/

def agePats : List RPat :=
  [ ⟨[], .digit, [RTok.star .space] ++ lits "year"⟩,
    ⟨lits "age" ++ [RTok.star .space], .digit, []⟩,
    ⟨lits "i" ++ [RTok.cls (.lit aposC)] ++ lits "m" ++ [RTok.star .space], .digit, []⟩,
    ⟨lits "i am" ++ [RTok.star .space], .digit, []⟩ ]

def covPats : List RPat :=
  [ ⟨[RTok.opt [RTok.cls (.lit '$')]], .digit, [RTok.cls (.lit 'k')]⟩,
    ⟨[RTok.opt [RTok.cls (.lit '$')]], .digit,
      [RTok.opt [RTok.cls (.lit ',')], RTok.star .digit,
       RTok.opt [RTok.cls (.lit ',')], RTok.star .digit,
       RTok.star .space] ++ lits "coverage"⟩,
    ⟨[RTok.cls (.lit '$')], .digit, []⟩ ]

def termPats : List RPat :=
  [ ⟨[], .digit, [RTok.star .space] ++ lits "year" ++ [RTok.star .anyc] ++ lits "term"⟩,
    ⟨[], .digit, [RTok.cls (.lit '-')] ++ lits "year"⟩ ]

/-- pattern_map.get(context) of ToolExecutor._extract_number. -/
def pattern_map (context : String) : Option (List RPat) :=
  if context == "age" then some agePats
  else if context == "coverage" then some covPats
  else if context == "term" then some termPats
  else none

/-- ToolExecutor._extract_number (app/agents/services.py): try the
ordered patterns, take the first capturing-group integer, and for the
coverage parameter multiply by 1000 when the character k occurs anywhere
in the text; default when no pattern matches. -/
def extract_number (text : String) (context : String) (dflt : Nat) : Nat :=
  match pattern_map context with
  | none => dflt
  | some pats =>
    match firstPatCap (pFuel text.data) pats text.data with
    | none => dflt
    | some g =>
      let num := digitsToNat g
      if context == "coverage" && strContains "k" text then num * 1000 else num

/-- The occupation pattern of ToolExecutor.execute:
(?:work in|occupation|job)(?:\s+(?:is|as))?\s+(\w+) -/
def occPat : RPat :=
  ⟨[RTok.alt [lits "work in", lits "occupation", lits "job"],
    RTok.opt [RTok.plus .space, RTok.alt [lits "is", lits "as"]],
    RTok.plus .space],
   .word, []⟩

/-- occupation_match.group(1) if matched, else "standard". -/
def extractOccupation (text : String) : String :=
  match searchCap (pFuel text.data) occPat text.data with
  | some (g, _) => ⟨g⟩
  | none => "standard"

/-! Section: Intent classification (IntentAnalyzer.analyze / graph _analyze_intent)

Gateway calls are modelled as Except values: .ok r is the generated
text, .error e a raised exception caught by the stage. -/

def VALID_INTENTS : List String :=
  ["POLICY_TYPES", "ELIGIBILITY", "CLAIMS", "PREMIUMS", "COVERAGE", "GENERAL"]

def analyze (resp : Except String String) : String :=
  match resp with
  | .error _ => "GENERAL"
  | .ok r =>
    let intent := pyUpper (pyStrip r)
    if VALID_INTENTS.contains intent then intent else "GENERAL"

/-! Section: Tool selection (ToolSelector.should_use_tools / graph _should_use_tools) -/

def calculate_keywords : List String :=
  ["calculate", "estimate", "cost", "price", "premium", "how much"]

def eligibility_keywords : List String :=
  ["eligible", "qualify", "can i get", "approved", "health"]

def compare_keywords : List String :=
  ["compare", "difference", "versus", "vs", "better"]

def anyKeyword (kws : List String) (q : String) : Bool :=
  kws.any (fun kw => strContains kw q)

/-- The deterministic keyword branch (the except clause of
ToolSelector.should_use_tools). -/
def should_use_tools_fallback (question intent : String) : Bool :=
  let ql := pyLower question
  if intent == "PREMIUMS" || anyKeyword calculate_keywords ql then true
  else if intent == "ELIGIBILITY" || anyKeyword eligibility_keywords ql then true
  else if anyKeyword compare_keywords ql then true
  else false

/-- ToolSelector.should_use_tools: the gateway judgment when the call
succeeds, the keyword fallback when it raises. -/
def should_use_tools (resp : Except String String) (question intent : String) : Bool :=
  match resp with
  | .ok r => strContains "YES" (pyUpper r)
  | .error _ => should_use_tools_fallback question intent

/-- graph.py _should_use_tools: the same keyword chain returning the
names of the conditional-edge targets. -/
def graphShouldUseTools (question intent : String) : String :=
  let q := pyLower question
  if intent == "PREMIUMS" || anyKeyword calculate_keywords q then "use_tools"
  else if intent == "ELIGIBILITY" || anyKeyword eligibility_keywords q then "use_tools"
  else if anyKeyword compare_keywords q then "use_tools"
  else "generate_answer"

/-! Section: Context retrieval (ContextRetriever.retrieve) -/

/-- The record returned by search_knowledge_base (which catches its own
exceptions, so it is total). -/
structure SearchKB where
  success : Bool
  context : String
  sources : List String

structure RetrieveEnv where
  memoryCtx : String → Except String String
  searchKB : String → Nat → SearchKB

def agent_search_k : Nat := 2

def intent_keywords (intent : String) : Option String :=
  if intent == "POLICY_TYPES" then some "policy types"
  else if intent == "ELIGIBILITY" then some "eligibility"
  else if intent == "CLAIMS" then some "claims"
  else if intent == "PREMIUMS" then some "premiums"
  else if intent == "COVERAGE" then some "coverage"
  else none

/-- Query composition and the single search call, after the history
fetch succeeded (or was skipped).  The second component records the
(query, k) arguments of every Knowledge Retriever call issued. -/
def retrieveCore (env : RetrieveEnv) (question intent : String) (hist : Option String) :
    String × List (String × Nat) :=
  let q1 := match hist with
    | some h =>
      if h != "" && h != "No previous conversation history." then
        h ++ "\n\nCurrent question: " ++ question
      else question
    | none => question
  let q2 := match intent_keywords intent with
    | some kw => q1 ++ " " ++ kw
    | none => q1
  let r := env.searchKB q2 agent_search_k
  ((if r.success then r.context else "No specific information found."), [(q2, agent_search_k)])

/-- ContextRetriever.retrieve.  A raise in the history fetch is caught
by the surrounding try and yields the error sentinel with no search
issued. -/
def retrieve (env : RetrieveEnv) (question intent : String) (session_id : Option String) :
    String × List (String × Nat) :=
  match session_id with
  | some sid =>
    if sid != "" then
      match env.memoryCtx sid with
      | .error _ => ("Error retrieving information.", [])
      | .ok h => retrieveCore env question intent (some h)
    else retrieveCore env question intent none
  | none => retrieveCore env question intent none

/-! Section: Tool execution (ToolExecutor.execute / graph _use_tools)

Each domain-tool invocation is an oracle returning .ok with the
stringified tool record, or .error when the call raises (the case the
except clause of execute is there for). -/

structure ToolEnv where
  premiumTool : Nat → Nat → Nat → Bool → Except String String
  eligTool : Nat → List String → Bool → String → Except String String
  compTool : List String → Except String String

def tool_default_age : Nat := 35
def tool_default_coverage : Nat := 500000
def tool_default_term : Nat := 20

def premTrigger (q : String) : Bool :=
  strContains "calculate" q || strContains "estimate" q || strContains "cost" q

def eligTrigger (q : String) : Bool :=
  strContains "eligible" q || strContains "qualify" q

def health_terms : List String :=
  ["diabetes", "high blood pressure", "cholesterol", "cancer", "heart disease", "asthma"]

def healthConditions (q : String) : List String :=
  health_terms.filter (fun t => strContains t q)

def known_types : List String := ["term", "whole", "universal", "variable"]

def policyTypesIn (q : String) : List String :=
  known_types.filter (fun t => strContains t q)

/-- The premium-calculation section of the try block: key
premium_estimate with the extracted parameters, or the raised error. -/
def runPrem (env : ToolEnv) (q : String) : Except String (List (String × String)) :=
  if premTrigger q then
    let age := extract_number q "age" tool_default_age
    let coverage := extract_number q "coverage" tool_default_coverage
    let term := extract_number q "term" tool_default_term
    let is_smoker := strContains "smok" q
    match env.premiumTool age coverage term is_smoker with
    | .ok v => .ok [("premium_estimate", v)]
    | .error e => .error e
  else .ok []

/-- The eligibility section of the try block. -/
def runElig (env : ToolEnv) (q : String) : Except String (List (String × String)) :=
  if eligTrigger q then
    let age := extract_number q "age" tool_default_age
    let smoker := strContains "smok" q
    let occupation := extractOccupation q
    match env.eligTool age (healthConditions q) smoker occupation with
    | .ok v => .ok [("eligibility", v)]
    | .error e => .error e
  else .ok []

/-- The comparison section of the try block: only when the question
contains "compare" and at least two known policy-type tokens. -/
def runComp (env : ToolEnv) (q : String) : Except String (List (String × String)) :=
  if strContains "compare" q then
    let pts := policyTypesIn q
    if 2 ≤ pts.length then
      match env.compTool pts with
      | .ok v => .ok [("comparison", v)]
      | .error e => .error e
    else .ok []
  else .ok []

/-- ToolExecutor.execute (app/agents/services.py): one try block around
the three sections; a raise returns the results accumulated so far. -/
def execute (env : ToolEnv) (question : String) : List (String × String) :=
  let q := pyLower question
  match runPrem env q with
  | .error _ => []
  | .ok l1 =>
    match runElig env q with
    | .error _ => l1
    | .ok l2 =>
      match runComp env q with
      | .error _ => l1 ++ l2
      | .ok l3 => l1 ++ l2 ++ l3

/-- graph.py _use_tools: the same try block, but the except clause
resets tool_results to the empty map. -/
def graphUseTools (env : ToolEnv) (q : String) : List (String × String) :=
  match runPrem env q with
  | .error _ => []
  | .ok l1 =>
    match runElig env q with
    | .error _ => []
    | .ok l2 =>
      match runComp env q with
      | .error _ => []
      | .ok l3 => l1 ++ l2 ++ l3

/-! Section: Premium estimation arithmetic (calculate_premium_estimate)

Modelled over the rationals; Python round(x, 2) becomes round2. -/

structure PremiumRecord where
  monthly_premium : ℚ
  annual_premium : ℚ
  total_term_cost : ℚ

def round2 (x : ℚ) : ℚ := (round (x * 100) : ℤ) / 100

def premium_base_rate : ℚ := 5 / 100

def premium_smoker_multiplier : ℚ := 5 / 2

def ageFactor (age : ℤ) : ℚ :=
  if 30 ≤ age then 1 + ((age : ℚ) - 30) * (15 / 1000) else 85 / 100

/-- The deterministic fallback formula used when no monthly figure can
be parsed out of the gateway response. -/
def fallbackMonthly (age coverage : ℤ) (is_smoker : Bool) : ℚ :=
  ((coverage : ℚ) / 1000) * premium_base_rate * ageFactor age *
    (if is_smoker then premium_smoker_multiplier else 1)

/-- The record assembled on the success path of
calculate_premium_estimate; parsedMonthly is the monthly figure parsed
out of the gateway response when the regex matched. -/
def premiumEstimateRecord (parsedMonthly : Option ℚ) (age coverage term : ℤ)
    (is_smoker : Bool) : PremiumRecord :=
  let m := parsedMonthly.getD (fallbackMonthly age coverage is_smoker)
  { monthly_premium := round2 m
    annual_premium := round2 (m * 12)
    total_term_cost := round2 (m * 12 * (term : ℚ)) }

/-- calculate_premium_estimate (app/agents/tools.py): a raise anywhere
inside is caught and reported as a success=False record, modelled as the
error branch. -/
def calculate_premium_estimate (llm : Except String (Option ℚ))
    (age coverage term : ℤ) (is_smoker : Bool) : Except String PremiumRecord :=
  match llm with
  | .error e => .error e
  | .ok parsed => .ok (premiumEstimateRecord parsed age coverage term is_smoker)

/-! Section: The orchestrator pipeline (LifeInsuranceAgent, app/agents/graph.py) -/

/-- The AgentState dict threaded through the langgraph nodes (the
messages field is consumed by langgraph only and is not modelled). -/
structure AgentState where
  question : String
  intent : String
  context : String
  needs_clarification : Bool
  tool_results : List (String × String)
  final_answer : String
  session_id : String

/-- The collaborators of one turn.  Each gateway oracle is a function of
the variable parts of the prompt it would receive. -/
structure GraphEnv where
  intentResp : String → Except String String
  searchKB : String → SearchKB
  clarResp : String → String → Except String String
  tools : ToolEnv
  memoryCtx : String → Except String String
  answerResp : String → String → String → Except String String

/-- graph _analyze_intent: the same classification logic as
IntentAnalyzer.analyze, writing the intent field. -/
def analyzeIntentStage (env : GraphEnv) (st : AgentState) : AgentState :=
  { st with intent := analyze (env.intentResp st.question) }

def graph_intent_queries (intent : String) : Option String :=
  if intent == "POLICY_TYPES" then some "types of life insurance policies"
  else if intent == "ELIGIBILITY" then some "life insurance eligibility requirements"
  else if intent == "CLAIMS" then some "life insurance claims process"
  else if intent == "PREMIUMS" then some "life insurance premium costs"
  else if intent == "COVERAGE" then some "life insurance coverage amounts"
  else none

/-- graph _retrieve_information: up to two searches (the question, plus
a fixed query for a recognized intent), keeping the successful ones. -/
def graphRetrieveValue (searchKB : String → SearchKB) (question intent : String) : String :=
  let queries := [question] ++
    (match graph_intent_queries intent with | some q => [q] | none => [])
  let all_context := (queries.take 2).filterMap
    (fun q => let r := searchKB q; if r.success then some r.context else none)
  if all_context.isEmpty then "No specific information found."
  else String.intercalate "\n\n" all_context

def retrieveInfoStage (env : GraphEnv) (st : AgentState) : AgentState :=
  { st with context := graphRetrieveValue env.searchKB st.question st.intent }

/-- The needs_clarification flag computed by _check_clarification from
the gateway response (false when the call raises). -/
def clarFlag (resp : Except String String) : Bool :=
  match resp with
  | .ok r => !(strContains "CLEAR" (pyUpper r))
  | .error _ => false

/-- graph _check_clarification: the prompt embeds the question and the
first 500 characters of the context. -/
def checkClarStage (env : GraphEnv) (st : AgentState) : AgentState :=
  { st with needs_clarification :=
      clarFlag (env.clarResp st.question ⟨st.context.data.take 500⟩) }

/-- graph _use_tools as a node. -/
def useToolsStage (env : GraphEnv) (st : AgentState) : AgentState :=
  { st with tool_results := graphUseTools env.tools (pyLower st.question) }

def genApology : String :=
  "I apologize, but I encountered an error processing your question. Please try rephrasing or contact support."

/-- The Tool Results text block appended to the retrieved context. -/
def toolContext (tool_results : List (String × String)) : String :=
  if tool_results.isEmpty then ""
  else "\n\nTool Results:\n" ++
    String.join (tool_results.map (fun kv => "\n" ++ pyUpper kv.1 ++ ":\n" ++ kv.2 ++ "\n"))

/-- graph _generate_answer: history fetch (when a session id is
present), context assembly, one gateway call; any raise yields the fixed
apology. -/
def generateAnswerValue (memoryCtx : String → Except String String)
    (answerResp : String → String → String → Except String String) (context : String)
    (tool_results : List (String × String)) (question session_id : String) : String :=
  let histE : Except String String :=
    if session_id != "" then memoryCtx session_id else .ok ""
  match histE with
  | .error _ => genApology
  | .ok h =>
    let full_context := context ++ "\n" ++ toolContext tool_results
    match answerResp (if h != "" then h else "No previous conversation")
        full_context question with
    | .error _ => genApology
    | .ok a => a

def generateAnswerStage (env : GraphEnv) (st : AgentState) : AgentState :=
  { st with final_answer :=
      (generateAnswerValue env.memoryCtx env.answerResp
        st.context st.tool_results st.question st.session_id) }

/-- self.graph.invoke: the fixed node sequence with the one conditional
edge keyed by the string _should_use_tools returns. -/
def runGraph (env : GraphEnv) (message session_id : String) : AgentState :=
  let st0 : AgentState :=
    { question := message, intent := "", context := "",
      needs_clarification := false, tool_results := [],
      final_answer := "", session_id := session_id }
  let st1 := analyzeIntentStage env st0
  let st2 := retrieveInfoStage env st1
  let st3 := checkClarStage env st2
  let st4 := if graphShouldUseTools st3.question st3.intent == "use_tools"
             then useToolsStage env st3 else st3
  generateAnswerStage env st4

/-! Section: process_message and its failure boundary -/

/-- The citation pattern re.findall uses on the retrieved context. -/
def sourcePat : RPat :=
  ⟨[RTok.cls (.lit '[')] ++ lits "Source " ++ [RTok.plus .digit] ++ lits ": ",
   .notRB, [RTok.cls (.lit ']')]⟩

/-- re.findall: repeatedly take the leftmost match and continue after
its end.  The first argument bounds the number of matches. -/
def findAll (fuel : Nat) (p : RPat) : Nat → List Char → List (List Char)
  | 0, _ => []
  | n + 1, s =>
    match searchCap fuel p s with
    | none => []
    | some (g, rest) => g :: findAll fuel p n rest

def findSourcesIn (context : String) : List String :=
  (findAll (pFuel context.data) sourcePat (context.data.length + 1) context.data).map
    (fun g => ⟨g⟩)

structure ChatResult where
  answer : String
  sources : List String
  agent_reasoning : String
  success : Bool

/-- The success-path return value of process_message.  Python
deduplicates the sources through an unordered set; the model keeps first
occurrences. -/
def buildResult (st : AgentState) : ChatResult :=
  { answer := st.final_answer
    sources := if st.context != "" then (findSourcesIn st.context).eraseDups else []
    agent_reasoning := "Intent: " ++ st.intent ++
      (if !st.tool_results.isEmpty then
        " | Tools Used: " ++ String.intercalate ", " (st.tool_results.map Prod.fst)
      else "")
    success := true }

def errorAnswer : String := "I apologize, but I encountered an error. Please try again."

/-- The top-level failure boundary of process_message: its argument is
the outcome of self.graph.invoke, error meaning an unexpected exception
escaped the pipeline. -/
def process_message (outcome : Except String AgentState) : ChatResult :=
  match outcome with
  | .ok st => buildResult st
  | .error e =>
    { answer := errorAnswer, sources := [],
      agent_reasoning := "Error: " ++ e, success := false }

/-- process_message on a turn in which the pipeline (whose stages are
all total) runs to completion. -/
def process_message_run (env : GraphEnv) (message session_id : String) : ChatResult :=
  process_message (.ok (runGraph env message session_id))

/-! Section: Specification-side definitions and concrete environments -/

/-- The query composition as the specification describes it: start with
the raw question, prepend the fetched history when it exists, then
append the keyword phrase of a recognized intent. -/
def composedQuerySpec (question intent : String) (hist : Option String) : String :=
  let base := match hist with
    | some h =>
      if h != "" && h != "No previous conversation history." then
        h ++ "\n\nCurrent question: " ++ question
      else question
    | none => question
  match intent_keywords intent with
  | some kw => base ++ " " ++ kw
  | none => base

/-- A tool environment in which every tool invocation succeeds. -/
def okToolEnv : ToolEnv :=
  { premiumTool := fun _ _ _ _ => .ok "P"
    eligTool := fun _ _ _ _ => .ok "E"
    compTool := fun _ => .ok "C" }

/-- A tool environment in which the premium invocation raises while the
other two succeed. -/
def failPremEnv : ToolEnv :=
  { premiumTool := fun _ _ _ _ => .error "boom"
    eligTool := fun _ _ _ _ => .ok "E"
    compTool := fun _ => .ok "C" }

/-- A tool environment in which the eligibility invocation raises while
the other two succeed. -/
def failEligEnv : ToolEnv :=
  { premiumTool := fun _ _ _ _ => .ok "P"
    eligTool := fun _ _ _ _ => .error "boom"
    compTool := fun _ => .ok "C" }

/-- A retrieval environment with one history record and a succeeding
knowledge-base search. -/
def wRetrieveEnv : RetrieveEnv :=
  { memoryCtx := fun _ => .ok "User: hi"
    searchKB := fun _ _ => { success := true, context := "ctx", sources := [] } }

/-- A turn environment in which every Language Model Gateway call
raises.  The knowledge retriever finds nothing; the domain tools catch
the gateway failure internally and return stringified failure records
(their own except clauses), so their invocations still return. -/
def allFailEnv : GraphEnv :=
  { intentResp := fun _ => .error "gateway down"
    searchKB := fun _ => { success := false, context := "No relevant information found.", sources := [] }
    clarResp := fun _ _ => .error "gateway down"
    tools :=
      { premiumTool := fun _ _ _ _ => .ok "premium tool degraded"
        eligTool := fun _ _ _ _ => .ok "eligibility tool degraded"
        compTool := fun _ => .ok "comparison tool degraded" }
    memoryCtx := fun _ => .ok ""
    answerResp := fun _ _ _ => .error "gateway down" }

/-! Section: theorems for the claims -/

/-- C2: the Tool Selector decision comes from the primary gateway path,
deciding true exactly when YES occurs in the upper-cased response (the
question and intent being irrelevant then), and the keyword fallback is
consulted exactly when the gateway call fails. -/
theorem C2_selector_primary_then_fallback :
    (∀ question intent r,
      should_use_tools (.ok r) question intent = strContains "YES" (pyUpper r)) ∧
    (∀ question question2 intent intent2 r,
      should_use_tools (.ok r) question intent =
        should_use_tools (.ok r) question2 intent2) ∧
    (∀ question intent e,
      should_use_tools (.error e) question intent =
        should_use_tools_fallback question intent) :=
  ⟨fun _ _ _ => rfl, fun _ _ _ _ _ => rfl, fun _ _ _ => rfl⟩

/-- C3: the deterministic keyword path decides true exactly when the
intent is PREMIUMS or a calculation keyword occurs, the intent is
ELIGIBILITY or an eligibility keyword occurs, or a comparison keyword
occurs, all on the lower-cased question. -/
theorem C3_fallback_keyword_iff (question intent : String) :
    should_use_tools_fallback question intent = true ↔
      ((intent = "PREMIUMS" ∨
          strContains "calculate" (pyLower question) = true ∨
          strContains "estimate" (pyLower question) = true ∨
          strContains "cost" (pyLower question) = true ∨
          strContains "price" (pyLower question) = true ∨
          strContains "premium" (pyLower question) = true ∨
          strContains "how much" (pyLower question) = true) ∨
        (intent = "ELIGIBILITY" ∨
          strContains "eligible" (pyLower question) = true ∨
          strContains "qualify" (pyLower question) = true ∨
          strContains "can i get" (pyLower question) = true ∨
          strContains "approved" (pyLower question) = true ∨
          strContains "health" (pyLower question) = true) ∨
        (strContains "compare" (pyLower question) = true ∨
          strContains "difference" (pyLower question) = true ∨
          strContains "versus" (pyLower question) = true ∨
          strContains "vs" (pyLower question) = true ∨
          strContains "better" (pyLower question) = true)) := by
  simp only [should_use_tools_fallback, anyKeyword, calculate_keywords,
    eligibility_keywords, compare_keywords, List.any_cons, List.any_nil,
    Bool.or_false]
  split_ifs with h1 h2 h3 <;> simp_all [Bool.or_eq_true, beq_iff_eq]

/-- Witness for C3 at a concrete comparison question. -/
theorem C3_fallback_keyword_iff_witness :
    should_use_tools_fallback "compare plans" "GENERAL" = true :=
  (C3_fallback_keyword_iff "compare plans" "GENERAL").mpr
    (Or.inr (Or.inr (Or.inl (by decide))))

/-- C7: classification always lands in the closed six-category set; a
response whose trimmed upper-cased text is not a member resolves to
GENERAL, and a failed gateway call resolves to GENERAL. -/
theorem C7_intent_always_valid (resp : Except String String) :
    VALID_INTENTS.contains (analyze resp) = true ∧
    (∀ r, resp = .ok r → VALID_INTENTS.contains (pyUpper (pyStrip r)) = false →
      analyze resp = "GENERAL") ∧
    (∀ e, resp = .error e → analyze resp = "GENERAL") := by
  refine ⟨?_, ?_, ?_⟩
  · cases resp with
    | error e => exact (by decide : VALID_INTENTS.contains "GENERAL" = true)
    | ok r =>
      simp only [analyze]
      split
      · next h => exact h
      · decide
  · intro r hr hnot
    subst hr
    simp only [analyze, hnot, Bool.false_eq_true, if_false]
  · intro e he
    subst he
    rfl

/-- Witness for C7: a valid label, a malformed label, a gateway raise. -/
theorem C7_intent_always_valid_witness :
    VALID_INTENTS.contains (analyze (.ok " premiums ")) = true ∧
    analyze (.ok "PREMIUM QUESTION") = "GENERAL" ∧
    analyze (.error "rate limit") = "GENERAL" :=
  ⟨(C7_intent_always_valid (.ok " premiums ")).1,
   (C7_intent_always_valid (.ok "PREMIUM QUESTION")).2.1 "PREMIUM QUESTION" rfl (by decide),
   (C7_intent_always_valid (.error "rate limit")).2.2 "rate limit" rfl⟩

/-- C8: whenever one of the ordered coverage patterns matches, the
captured integer is multiplied by 1000 exactly when the character k
occurs anywhere in the text (also when the k is outside the matched
substring, as in the kids example), and the default is returned when no
pattern matches. -/
theorem C8_coverage_times_1000_on_any_k :
    (∀ text dflt g,
      firstPatCap (pFuel text.data) covPats text.data = some g →
      extract_number text "coverage" dflt =
        (if strContains "k" text then digitsToNat g * 1000 else digitsToNat g)) ∧
    (∀ text dflt,
      firstPatCap (pFuel text.data) covPats text.data = none →
      extract_number text "coverage" dflt = dflt) ∧
    extract_number "$500k coverage" "coverage" 250000 = 500000 ∧
    extract_number "2000 coverage for kids" "coverage" 250000 = 2000000 := by
  refine ⟨?_, ?_, by decide, by decide⟩
  · intro text dflt g h
    simp [extract_number, pattern_map, h]
  · intro text dflt h
    simp [extract_number, pattern_map, h]

theorem runPrem_ok_shape (env : ToolEnv) (q : String) (l : List (String × String))
    (h : runPrem env q = .ok l) :
    l = [] ∨ ∃ v, l = [("premium_estimate", v)] := by
  simp only [runPrem] at h
  split at h
  · split at h
    · next v hv =>
      injection h with h
      exact Or.inr ⟨v, h.symm⟩
    · simp at h
  · injection h with h
    exact Or.inl h.symm

theorem runElig_ok_shape (env : ToolEnv) (q : String) (l : List (String × String))
    (h : runElig env q = .ok l) :
    l = [] ∨ ∃ v, l = [("eligibility", v)] := by
  simp only [runElig] at h
  split at h
  · split at h
    · next v hv =>
      injection h with h
      exact Or.inr ⟨v, h.symm⟩
    · simp at h
  · injection h with h
    exact Or.inl h.symm

theorem runComp_lt_two (env : ToolEnv) (q : String)
    (h : (policyTypesIn q).length < 2) : runComp env q = .ok [] := by
  simp only [runComp]
  split
  · rw [if_neg (by omega)]
  · rfl

theorem runComp_no_compare (env : ToolEnv) (q : String)
    (h : strContains "compare" q = false) : runComp env q = .ok [] := by
  simp only [runComp, h, Bool.false_eq_true, if_false]

/-- When the comparison section contributes nothing, no key of the
result map is the comparison key, whatever the other sections did. -/
theorem execute_lookup_comparison_none (env : ToolEnv) (question : String)
    (hc : runComp env (pyLower question) = .ok []) :
    (execute env question).lookup "comparison" = none := by
  simp only [execute]
  cases hp : runPrem env (pyLower question) with
  | error e => rfl
  | ok l1 =>
    cases he : runElig env (pyLower question) with
    | error e =>
      rcases runPrem_ok_shape env _ l1 hp with rfl | ⟨v, rfl⟩ <;> rfl
    | ok l2 =>
      rw [hc]
      rcases runPrem_ok_shape env _ l1 hp with rfl | ⟨v, rfl⟩ <;>
        rcases runElig_ok_shape env _ l2 he with rfl | ⟨w, rfl⟩ <;> rfl

/-- C4 counterexample: on a question triggering both the premium and the
eligibility tools, a raise in the premium invocation alone (while the
eligibility invocation would return its record) empties the whole result
map — the eligibility key is not present, contradicting the claim that
only the failing tool key is omitted. -/
theorem C4_counterexample :
    eligTrigger (pyLower "what does it cost and am i eligible") = true ∧
    failPremEnv.eligTool 35 [] false "standard" = .ok "E" ∧
    execute failPremEnv "what does it cost and am i eligible" = [] :=
  ⟨rfl, rfl, rfl⟩

/-- C4 amended: execute never raises; a failing tool invocation aborts
the remaining sections, keeping exactly the results accumulated before
the failure (so the failing key and every later key are omitted, earlier
keys are kept). -/
theorem C4_failure_prefix_preserved (env : ToolEnv) (question : String) :
    (∀ e, runPrem env (pyLower question) = .error e → execute env question = []) ∧
    (∀ l1 e, runPrem env (pyLower question) = .ok l1 →
      runElig env (pyLower question) = .error e → execute env question = l1) ∧
    (∀ l1 l2 e, runPrem env (pyLower question) = .ok l1 →
      runElig env (pyLower question) = .ok l2 →
      runComp env (pyLower question) = .error e →
      execute env question = l1 ++ l2) := by
  refine ⟨?_, ?_, ?_⟩
  · intro e hp
    simp only [execute]
    rw [hp]
  · intro l1 e hp he
    simp only [execute]
    rw [hp, he]
  · intro l1 l2 e hp he hc
    simp only [execute]
    rw [hp, he, hc]

/-- Witness for C4: the premium result survives an eligibility-tool
failure, while the eligibility and comparison keys are dropped. -/
theorem C4_failure_prefix_preserved_witness :
    execute failEligEnv "cost and eligible, compare term vs whole" =
      [("premium_estimate", "P")] :=
  (C4_failure_prefix_preserved failEligEnv "cost and eligible, compare term vs whole").2.1
    [("premium_estimate", "P")] "boom" rfl rfl

/-- C5 counterexample: a question with two policy-type tokens but
without the substring compare does not invoke the comparison tool, so
two tokens alone do not make it fire. -/
theorem C5_counterexample :
    2 ≤ (policyTypesIn (pyLower "term or whole life")).length ∧
    (execute okToolEnv "term or whole life").lookup "comparison" = none :=
  ⟨by decide, rfl⟩

/-- C5 amended: the comparison tool fires exactly on questions that
contain the trigger substring compare and at least two policy-type
tokens, provided the earlier tool sections did not raise; with fewer
than two tokens, or without the compare substring, the comparison key
is never present. -/
theorem C5_comparison_needs_compare_and_two_types (env : ToolEnv) (question : String) :
    (∀ l1 l2 v,
      strContains "compare" (pyLower question) = true →
      2 ≤ (policyTypesIn (pyLower question)).length →
      runPrem env (pyLower question) = .ok l1 →
      runElig env (pyLower question) = .ok l2 →
      env.compTool (policyTypesIn (pyLower question)) = .ok v →
      execute env question = l1 ++ l2 ++ [("comparison", v)]) ∧
    ((policyTypesIn (pyLower question)).length < 2 →
      (execute env question).lookup "comparison" = none) ∧
    (strContains "compare" (pyLower question) = false →
      (execute env question).lookup "comparison" = none) := by
  refine ⟨?_, ?_, ?_⟩
  · intro l1 l2 v hcmp hlen hp he hv
    have hc : runComp env (pyLower question) = .ok [("comparison", v)] := by
      simp only [runComp]
      rw [if_pos hcmp, if_pos hlen, hv]
    simp only [execute]
    rw [hp, he, hc]
  · intro hlen
    exact execute_lookup_comparison_none env question (runComp_lt_two env _ hlen)
  · intro hno
    exact execute_lookup_comparison_none env question (runComp_no_compare env _ hno)

/-- Witness for C5: the firing direction, the fewer-than-two-tokens
direction, and the no-compare direction (at a question that does have
two policy-type tokens). -/
theorem C5_comparison_needs_compare_and_two_types_witness :
    execute okToolEnv "compare term and whole" = [("comparison", "C")] ∧
    (execute okToolEnv "compare this").lookup "comparison" = none ∧
    (execute okToolEnv "term and whole, which is better").lookup "comparison" = none :=
  ⟨(C5_comparison_needs_compare_and_two_types okToolEnv "compare term and whole").1
      [] [] "C" rfl (by decide) rfl rfl rfl,
   (C5_comparison_needs_compare_and_two_types okToolEnv "compare this").2.1 (by decide),
   (C5_comparison_needs_compare_and_two_types okToolEnv
      "term and whole, which is better").2.2 (by decide)⟩

/-- C6: retrieve composes one query — raw question, history prepended
when a session is supplied and history exists, intent keyword appended
for the five specific categories — and submits exactly one search with
the configured passage bound. -/
theorem C6_retrieve_single_composed_query (env : RetrieveEnv) (question intent : String) :
    (retrieve env question intent none).2 =
      [(composedQuerySpec question intent none, agent_search_k)] ∧
    (retrieve env question intent (some "")).2 =
      [(composedQuerySpec question intent none, agent_search_k)] ∧
    (∀ sid h, (sid != "") = true → env.memoryCtx sid = .ok h →
      (retrieve env question intent (some sid)).2 =
        [(composedQuerySpec question intent (some h), agent_search_k)]) := by
  refine ⟨rfl, rfl, ?_⟩
  intro sid h hs hm
  simp only [retrieve, hs, if_true, hm]
  rfl

/-- Witness for C6: one history record, a PREMIUMS intent, one call. -/
theorem C6_retrieve_single_composed_query_witness :
    (retrieve wRetrieveEnv "what does term cost" "PREMIUMS" (some "s1")).2 =
      [(composedQuerySpec "what does term cost" "PREMIUMS" (some "User: hi"),
        agent_search_k)] :=
  (C6_retrieve_single_composed_query wRetrieveEnv "what does term cost" "PREMIUMS").2.2
    "s1" "User: hi" rfl rfl

theorem round2_abs_sub (x : ℚ) : |round2 x - x| ≤ 1 / 200 := by
  have h := abs_sub_round (x * 100)
  unfold round2
  have h2 : ((round (x * 100) : ℤ) : ℚ) / 100 - x =
      -((x * 100 - ((round (x * 100) : ℤ) : ℚ)) / 100) := by ring
  rw [h2, abs_neg, abs_div]
  have h3 : |(100 : ℚ)| = 100 := by norm_num
  rw [h3]
  calc |x * 100 - ((round (x * 100) : ℤ) : ℚ)| / 100 ≤ (1 / 2) / 100 := by gcongr
    _ = 1 / 200 := by norm_num

theorem round2_nonneg (x : ℚ) (hx : 0 ≤ x) : 0 ≤ round2 x := by
  unfold round2
  apply div_nonneg _ (by norm_num)
  have h : (0 : ℤ) ≤ round (x * 100) := by
    rw [round_eq]
    exact Int.floor_nonneg.2 (by linarith)
  exact_mod_cast h

theorem round2_mul12_close (m : ℚ) : |round2 m * 12 - round2 (m * 12)| ≤ 13 / 200 := by
  have h1 := round2_abs_sub m
  have h2 := round2_abs_sub (m * 12)
  have e : round2 m * 12 - round2 (m * 12) =
      (round2 m - m) * 12 - (round2 (m * 12) - m * 12) := by ring
  rw [e]
  calc |(round2 m - m) * 12 - (round2 (m * 12) - m * 12)|
      ≤ |(round2 m - m) * 12| + |round2 (m * 12) - m * 12| := abs_sub _ _
    _ = |round2 m - m| * 12 + |round2 (m * 12) - m * 12| := by
        rw [abs_mul]; norm_num
    _ ≤ (1 / 200) * 12 + 1 / 200 := by
        exact add_le_add (mul_le_mul_of_nonneg_right h1 (by norm_num)) h2
    _ ≤ 13 / 200 := by norm_num

theorem round2_mul_term_close (m t : ℚ) (ht : 0 ≤ t) :
    |round2 (m * 12) * t - round2 (m * 12 * t)| ≤ (t + 1) / 200 := by
  have h1 := round2_abs_sub (m * 12)
  have h2 := round2_abs_sub (m * 12 * t)
  have e : round2 (m * 12) * t - round2 (m * 12 * t) =
      (round2 (m * 12) - m * 12) * t - (round2 (m * 12 * t) - m * 12 * t) := by ring
  rw [e]
  calc |(round2 (m * 12) - m * 12) * t - (round2 (m * 12 * t) - m * 12 * t)|
      ≤ |(round2 (m * 12) - m * 12) * t| + |round2 (m * 12 * t) - m * 12 * t| :=
        abs_sub _ _
    _ = |round2 (m * 12) - m * 12| * t + |round2 (m * 12 * t) - m * 12 * t| := by
        rw [abs_mul, abs_of_nonneg ht]
    _ ≤ (1 / 200) * t + 1 / 200 :=
        add_le_add (mul_le_mul_of_nonneg_right h1 ht) h2
    _ = (t + 1) / 200 := by ring

theorem ageFactor_nonneg (age : ℤ) : 0 ≤ ageFactor age := by
  unfold ageFactor
  split
  · next h =>
    have hc : (30 : ℚ) ≤ (age : ℚ) := by exact_mod_cast h
    nlinarith
  · norm_num

theorem fallbackMonthly_nonneg (age coverage : ℤ) (s : Bool) (hc : 0 ≤ coverage) :
    0 ≤ fallbackMonthly age coverage s := by
  unfold fallbackMonthly
  have h1 : (0 : ℚ) ≤ (coverage : ℚ) := by exact_mod_cast hc
  refine mul_nonneg (mul_nonneg (mul_nonneg ?_ ?_) (ageFactor_nonneg age)) ?_
  · exact div_nonneg h1 (by norm_num)
  · norm_num [premium_base_rate]
  · cases s <;> norm_num [premium_smoker_multiplier]

/-- C9: on the success path of the premium tool, the three cost fields
are the two-decimal roundings of monthly, monthly times 12, and that
times the term, hence consistent within rounding, and all non-negative
(the parsed monthly figure comes from a digit-only capture, hence the
non-negativity hypothesis on it). -/
theorem C9_premium_record_arithmetic (parsed : Option ℚ) (age coverage term : ℤ)
    (s : Bool) (r : PremiumRecord)
    (hp : ∀ m, parsed = some m → 0 ≤ m)
    (hc : 0 ≤ coverage) (ht : 0 ≤ term)
    (hr : calculate_premium_estimate (.ok parsed) age coverage term s = .ok r) :
    |r.monthly_premium * 12 - r.annual_premium| ≤ 13 / 200 ∧
    |r.annual_premium * (term : ℚ) - r.total_term_cost| ≤ ((term : ℚ) + 1) / 200 ∧
    0 ≤ r.monthly_premium ∧ 0 ≤ r.annual_premium ∧ 0 ≤ r.total_term_cost := by
  simp only [calculate_premium_estimate] at hr
  injection hr with hr
  subst hr
  simp only [premiumEstimateRecord]
  have htq : (0 : ℚ) ≤ (term : ℚ) := by exact_mod_cast ht
  have hm : 0 ≤ parsed.getD (fallbackMonthly age coverage s) := by
    cases hparsed : parsed with
    | none => exact fallbackMonthly_nonneg age coverage s hc
    | some mv => exact hp mv hparsed
  set m := parsed.getD (fallbackMonthly age coverage s) with hmdef
  refine ⟨round2_mul12_close m, round2_mul_term_close m (term : ℚ) htq,
    round2_nonneg m hm, round2_nonneg _ (by nlinarith),
    round2_nonneg _ (by nlinarith)⟩

/-- Witness for C9 at the fallback formula with the default factors. -/
theorem C9_premium_record_arithmetic_witness :
    |(premiumEstimateRecord none 35 500000 20 false).monthly_premium * 12 -
        (premiumEstimateRecord none 35 500000 20 false).annual_premium| ≤ 13 / 200 ∧
    |(premiumEstimateRecord none 35 500000 20 false).annual_premium * ((20 : ℤ) : ℚ) -
        (premiumEstimateRecord none 35 500000 20 false).total_term_cost| ≤
      (((20 : ℤ) : ℚ) + 1) / 200 ∧
    0 ≤ (premiumEstimateRecord none 35 500000 20 false).monthly_premium ∧
    0 ≤ (premiumEstimateRecord none 35 500000 20 false).annual_premium ∧
    0 ≤ (premiumEstimateRecord none 35 500000 20 false).total_term_cost :=
  C9_premium_record_arithmetic none 35 500000 20 false
    (premiumEstimateRecord none 35 500000 20 false)
    (fun _ hm => nomatch hm) (by norm_num) (by norm_num) rfl

/-- C10: the clarification stage is inert.  Two turns that differ only
in the gateway response to the clarification prompt produce the same
returned record, and their final pipeline states agree on every field
except the needs_clarification flag itself — no later stage reads it. -/
theorem C10_clarification_inert (env : GraphEnv)
    (c1 c2 : String → String → Except String String) (message session_id : String) :
    process_message_run { env with clarResp := c1 } message session_id =
      process_message_run { env with clarResp := c2 } message session_id ∧
    runGraph { env with clarResp := c1 } message session_id =
      { runGraph { env with clarResp := c2 } message session_id with
        needs_clarification :=
          (runGraph { env with clarResp := c1 } message session_id).needs_clarification } := by
  constructor
  · unfold process_message_run process_message buildResult runGraph analyzeIntentStage
      retrieveInfoStage checkClarStage useToolsStage generateAnswerStage
    dsimp only
    by_cases hroute :
        (graphShouldUseTools message (analyze (env.intentResp message)) == "use_tools") = true <;>
      simp only [hroute, if_true, if_false, Bool.false_eq_true]
  · unfold runGraph analyzeIntentStage retrieveInfoStage checkClarStage useToolsStage
      generateAnswerStage
    dsimp only
    by_cases hroute :
        (graphShouldUseTools message (analyze (env.intentResp message)) == "use_tools") = true <;>
      simp only [hroute, if_true, if_false, Bool.false_eq_true]

/-- C1: the turn boundary.  Whatever the collaborators do, the pipeline
stages are total, process_message returns a record of the fixed shape
with success true, and when an unexpected exception does escape the
pipeline the boundary returns the generic failure record with success
false.  In the all-gateway-failure turn the answer is the fixed apology
and the turn still reports success (graceful degradation, no raise). -/
theorem C1_process_message_total_boundary :
    (∀ e, process_message (.error e) =
      { answer := errorAnswer, sources := [], agent_reasoning := "Error: " ++ e,
        success := false }) ∧
    (∀ env message session_id,
      process_message_run env message session_id =
        buildResult (runGraph env message session_id) ∧
      (process_message_run env message session_id).success = true) ∧
    (∀ message session_id,
      (process_message_run allFailEnv message session_id).answer = genApology ∧
      (process_message_run allFailEnv message session_id).success = true) := by
  refine ⟨fun e => rfl, fun env m s => ⟨rfl, rfl⟩, ?_⟩
  intro m s
  refine ⟨?_, rfl⟩
  show (runGraph allFailEnv m s).final_answer = genApology
  unfold runGraph analyzeIntentStage retrieveInfoStage checkClarStage useToolsStage
    generateAnswerStage generateAnswerValue
  dsimp only
  by_cases hs : (s != "") = true <;> simp [hs, allFailEnv]

/-- Witness for C8: the match and no-match branches at concrete texts. -/
theorem C8_coverage_times_1000_on_any_k_witness :
    extract_number "$500k coverage" "coverage" 250000 =
      (if strContains "k" "$500k coverage" then digitsToNat ['5', '0', '0'] * 1000
       else digitsToNat ['5', '0', '0']) ∧
    extract_number "hello world" "coverage" 250000 = 250000 :=
  ⟨C8_coverage_times_1000_on_any_k.1 "$500k coverage" 250000 ['5', '0', '0'] (by decide),
   C8_coverage_times_1000_on_any_k.2.1 "hello world" 250000 (by decide)⟩

end Lisa
